import Mathlib

/-!
# Verification of the INFRA-WORKER-API request data path

A shallow embedding of the worker's request pipeline into Lean 4, translated
from the Python sources (`decision.py`, `rate_limit.py`, `ml.py`, `security.py`,
`config_manager.py`, `traffic_logger.py`, `main.py`).

Modelling conventions:
* Python `str` is modelled as `List Char` (`Str` below).
* Python floats are modelled by exact rationals `ℚ`; the quantities involved
  (signal scores, weights, two-decimal rounding) are all exactly representable
  decimals, so the rational model agrees with the intended real-number
  semantics of the code.
* The external Redis KV store is modelled as an explicit state
  (`RedisState`) threaded through the functions that use it; Redis
  operations return `Except KvError`, and every operation fails with
  `KvError.kv_unavailable` when the store is down (`up = false`), exactly
  as the Python client raises when the connection is unavailable.
* Wall-clock time enters only through the fixed-window minute bucket; `now`
  (seconds) is passed explicitly.  TTLs (`expire`) affect only wall-clock
  expiry, which is outside the model; `expire` is modelled as a state-preserving
  KV call that still fails when the store is down.
-/

set_option maxRecDepth 4096

namespace InfraWorker

/-- Python strings. -/
abbrev Str := List Char

/-- Association-list lookup, modelling Python `dict.get`. -/
def lookupKey {α : Type} : List (Str × α) → Str → Option α
  | [], _ => none
  | (k, v) :: t, q => if k = q then some v else lookupKey t q

/-- Association-list update/insert, modelling Python `dict.__setitem__`
(and the Redis value store). -/
def setKey {α : Type} : List (Str × α) → Str → α → List (Str × α)
  | [], q, x => [(q, x)]
  | (k, v) :: t, q, x => if k = q then (q, x) :: t else (k, v) :: setKey t q x

/-! ## `decision.py` -/

/-- `class Decision(str, Enum)` — a closed tagged variant. -/
inductive Decision
  | ALLOW
  | THROTTLE
  | BLOCK
deriving DecidableEq, Repr

/-- `Decision.value` — the string payload of each enum member. -/
def Decision.value : Decision → Str
  | .ALLOW => "ALLOW".toList
  | .THROTTLE => "THROTTLE".toList
  | .BLOCK => "BLOCK".toList

/-- The dict returned by `make_decision` (the constant `metadata` sub-dict is
inlined as the two fields it carries). -/
structure DecisionResult where
  decision : Decision
  reason : Str
  meta_remaining_requests : Int
  meta_risk_score : ℚ
deriving DecidableEq, Repr

/-- `make_decision` from `decision.py`, lines 11–82: progressive decision
engine, conditions evaluated in order. -/
def make_decision (rate_limit_allowed : Bool) (remaining_requests : Int)
    (ml_risk_score : ℚ) : DecisionResult :=
  if rate_limit_allowed = false then
    ⟨.BLOCK, "Confirmed abuse: rate limit exceeded".toList,
      remaining_requests, ml_risk_score⟩
  else if ml_risk_score ≥ 0.9 then
    ⟨.BLOCK, "Confirmed abuse: high risk behavior".toList,
      remaining_requests, ml_risk_score⟩
  else if ml_risk_score ≥ 0.6 then
    ⟨.THROTTLE, "Abnormal usage pattern detected".toList,
      remaining_requests, ml_risk_score⟩
  else if remaining_requests ≤ 5 then
    ⟨.THROTTLE, "Approaching rate limit".toList,
      remaining_requests, ml_risk_score⟩
  else
    ⟨.ALLOW, "Usage within expected behavior".toList,
      remaining_requests, ml_risk_score⟩

/-- The decision table of spec §4.6, written from the spec's words (for the
refinement claim C2): rows evaluated in order, returning `(decision, reason)`. -/
def decisionTableSpec (rate_limit_allowed : Bool) (remaining : Int)
    (risk_score : ℚ) : Decision × Str :=
  if rate_limit_allowed = false then
    (.BLOCK, "Confirmed abuse: rate limit exceeded".toList)
  else if risk_score ≥ 0.9 then
    (.BLOCK, "Confirmed abuse: high risk behavior".toList)
  else if risk_score ≥ 0.6 then
    (.THROTTLE, "Abnormal usage pattern detected".toList)
  else if remaining ≤ 5 then
    (.THROTTLE, "Approaching rate limit".toList)
  else
    (.ALLOW, "Usage within expected behavior".toList)

/-! ## KV client (`redis_client.py` / the Redis server, modelled) -/

/-- The single error category surfaced by the KV adapter (spec §4.1). -/
inductive KvError
  | kv_unavailable
deriving DecidableEq, Repr

/-- The external Redis store: integer counters and sets of strings, plus an
availability flag.  When `up = false` every operation raises, modelling a
connection error from the Python client. -/
structure RedisState where
  up : Bool
  counters : List (Str × Nat)
  sets : List (Str × List Str)
deriving DecidableEq, Repr

/-- Redis `INCR`: atomic increment, returning the new value (missing keys
count as 0 before the increment). -/
def RedisState.incr (s : RedisState) (k : Str) :
    Except KvError (Nat × RedisState) :=
  if s.up then
    let c := (lookupKey s.counters k).getD 0 + 1
    .ok (c, { s with counters := setKey s.counters k c })
  else
    .error .kv_unavailable

/-- Redis `EXPIRE`: sets a TTL.  Wall-clock expiry is outside the model, so
the stored data is unchanged; the call still fails when the store is down. -/
def RedisState.expire (s : RedisState) (_k : Str) (_seconds : Nat) :
    Except KvError RedisState :=
  if s.up then .ok s else .error .kv_unavailable

/-- Redis `SADD`: add a member to a set (no duplicates). -/
def RedisState.sadd (s : RedisState) (k : Str) (member : Str) :
    Except KvError RedisState :=
  if s.up then
    let cur := (lookupKey s.sets k).getD []
    let cur' := if member ∈ cur then cur else member :: cur
    .ok { s with sets := setKey s.sets k cur' }
  else
    .error .kv_unavailable

/-- Redis `SCARD`: cardinality of a set (0 for a missing key). -/
def RedisState.scard (s : RedisState) (k : Str) : Except KvError Nat :=
  if s.up then .ok ((lookupKey s.sets k).getD []).length
  else .error .kv_unavailable

/-! ## `rate_limit.py` -/

/-- `ENDPOINT_LIMITS` from `rate_limit.py`, lines 11–17: `(rpm, burst)` per
profile. -/
def ENDPOINT_LIMITS : List (Str × (Nat × Nat)) :=
  [("HIGH".toList, (10, 5)),
   ("MEDIUM".toList, (60, 20)),
   ("LOW".toList, (300, 50))]

/-- `DEFAULT_PROFILE = "MEDIUM"`. -/
def DEFAULT_PROFILE : Str := "MEDIUM".toList

/-- `_current_minute()`: `int(time.time() // 60)`, with the wall clock `now`
(seconds) passed explicitly. -/
def current_minute (now : Nat) : Nat := now / 60

/-- `rate_limit_key`: `rate_limit:{key_hash}:{ip}:{endpoint}:{minute}`. -/
def rate_limit_key (api_key_hash ip_address endpoint : Str) (now : Nat) : Str :=
  "rate_limit:".toList ++ api_key_hash ++ ":".toList ++ ip_address
    ++ ":".toList ++ endpoint ++ ":".toList ++ (Nat.repr (current_minute now)).toList

/-- Python's substring test `needle in haystack`. -/
def strContains (haystack needle : Str) : Bool :=
  decide (needle <:+: haystack)

/-- `classify_endpoint` from `rate_limit.py`, lines 32–45.  Python's
`str.lower`/substring test are modelled with `Char.toLower`/`strContains`
(the endpoints produced by `normalize_path` are ASCII-relevant here). -/
def classify_endpoint (endpoint : Str) : Str :=
  let e := endpoint.map Char.toLower
  if strContains e "auth".toList ∨ strContains e "login".toList
      ∨ strContains e "otp".toList then
    "HIGH".toList
  else if strContains e "search".toList ∨ strContains e "list".toList then
    "LOW".toList
  else
    DEFAULT_PROFILE

/-- `check_rate_limit` from `rate_limit.py`, lines 52–83.  Returns
`(allowed, remaining)` with the updated KV state, or the propagated KV
error (the Python code has no `try`/`except` around the Redis calls). -/
def check_rate_limit (api_key_hash ip_address endpoint : Str) (now : Nat)
    (kv : RedisState) : Except KvError ((Bool × Int) × RedisState) := do
  let profile := classify_endpoint endpoint
  let limits := (lookupKey ENDPOINT_LIMITS profile).getD (0, 0)
  let rpm := limits.1
  let burst := limits.2
  let key := rate_limit_key api_key_hash ip_address endpoint now
  let (current_count, kv) ← kv.incr key
  let kv ← if current_count = 1 then kv.expire key 60 else pure kv
  if current_count > rpm + burst then
    return ((false, 0), kv)
  else
    return ((true, max ((rpm : Int) - (current_count : Int)) 0), kv)

/-! ## `ml.py` -/

/-- `WINDOW_SECONDS = 60`. -/
def WINDOW_SECONDS : Nat := 60

/-- Round-half-to-even to an integer (the rounding mode of Python's
built-in `round`). -/
def roundHalfEven (q : ℚ) : ℤ :=
  let f := ⌊q⌋
  let r := q - (f : ℚ)
  if r < 1 / 2 then f
  else if r > 1 / 2 then f + 1
  else if 2 ∣ f then f else f + 1

/-- Python `round(x, 2)` over exact rationals: round `100·x` half-to-even,
then divide by 100. -/
def round2 (q : ℚ) : ℚ :=
  (roundHalfEven (q * 100) : ℚ) / 100

/-- The dict returned by `compute_risk_score`: the aggregate score, the four
entries of the `signals` dict (in insertion order), and `primary_reason`. -/
structure RiskResult where
  risk_score : ℚ
  sig_velocity : ℚ
  sig_burst : ℚ
  sig_endpoint_drift : ℚ
  sig_fanout : ℚ
  primary_reason : Str
deriving DecidableEq, Repr

/-- `compute_risk_score` from `ml.py`, lines 10–72.  Python's
`max(signals, key=signals.get)` returns the first key (in the insertion
order velocity, burst, endpoint_drift, fanout) attaining the maximal value,
which the cascade below reproduces.  The Redis calls have no `try`/`except`
in the source, so KV errors propagate. -/
def compute_risk_score (api_key_hash ip_address endpoint : Str)
    (kv : RedisState) : Except KvError (RiskResult × RedisState) := do
  let velocity_key := "ml:velocity:".toList ++ api_key_hash ++ ":".toList
    ++ ip_address ++ ":".toList ++ endpoint
  let (velocity, kv) ← kv.incr velocity_key
  let kv ← if velocity = 1 then kv.expire velocity_key WINDOW_SECONDS else pure kv
  let velocity_score : ℚ := min ((velocity : ℚ) / 30) 1
  let burst_score : ℚ := if velocity > 20 then 1 else (velocity : ℚ) / 20
  let drift_key := "ml:endpoints:".toList ++ api_key_hash ++ ":".toList ++ ip_address
  let kv ← kv.sadd drift_key endpoint
  let kv ← kv.expire drift_key WINDOW_SECONDS
  let endpoint_count ← kv.scard drift_key
  let drift_score : ℚ := min ((endpoint_count : ℚ) / 5) 1
  let fanout_score : ℚ := 0
  let risk_score : ℚ := 0.4 * velocity_score + 0.3 * burst_score + 0.3 * drift_score
  let primary_reason : Str :=
    if velocity_score ≥ burst_score ∧ velocity_score ≥ drift_score
        ∧ velocity_score ≥ fanout_score then "velocity".toList
    else if burst_score ≥ drift_score ∧ burst_score ≥ fanout_score then "burst".toList
    else if drift_score ≥ fanout_score then "endpoint_drift".toList
    else "fanout".toList
  return (⟨round2 risk_score, velocity_score, burst_score, drift_score,
    fanout_score, primary_reason⟩, kv)

/-! ## `security.py` (with SHA-256 from `hashlib`, implemented concretely) -/

/-- 32-bit truncation. -/
def w32 (n : Nat) : Nat := n % 4294967296

/-- 32-bit rotate right. -/
def rotr32 (x k : Nat) : Nat := w32 ((x >>> k) ||| (x <<< (32 - k)))

/-- UTF-8 encoding of one code point (Python `str.encode`). -/
def utf8Bytes (c : Char) : List Nat :=
  let n := c.toNat
  if n < 128 then [n]
  else if n < 2048 then
    [192 + n / 64, 128 + n % 64]
  else if n < 65536 then
    [224 + n / 4096, 128 + n / 64 % 64, 128 + n % 64]
  else
    [240 + n / 262144, 128 + n / 4096 % 64, 128 + n / 64 % 64, 128 + n % 64]

/-- UTF-8 encoding of a string. -/
def utf8Encode (s : Str) : List Nat := (s.map utf8Bytes).flatten

/-- Big-endian byte serialization of `v` into `m` bytes. -/
def beBytes : Nat → Nat → List Nat
  | 0, _ => []
  | m + 1, v => beBytes m (v / 256) ++ [v % 256]

/-- SHA-256 round constants (decimal). -/
def sha256K : List Nat :=
  [1116352408, 1899447441, 3049323471, 3921009573, 961987163,
   1508970993, 2453635748, 2870763221, 3624381080, 310598401,
   607225278, 1426881987, 1925078388, 2162078206, 2614888103,
   3248222580, 3835390401, 4022224774, 264347078, 604807628,
   770255983, 1249150122, 1555081692, 1996064986, 2554220882,
   2821834349, 2952996808, 3210313671, 3336571891, 3584528711,
   113926993, 338241895, 666307205, 773529912, 1294757372,
   1396182291, 1695183700, 1986661051, 2177026350, 2456956037,
   2730485921, 2820302411, 3259730800, 3345764771, 3516065817,
   3600352804, 4094571909, 275423344, 430227734, 506948616,
   659060556, 883997877, 958139571, 1322822218, 1537002063,
   1747873779, 1955562222, 2024104815, 2227730452, 2361852424,
   2428436474, 2756734187, 3204031479, 3329325298]

/-- SHA-256 initial hash state (decimal). -/
def sha256H0 : List Nat :=
  [1779033703, 3144134277, 1013904242, 2773480762,
   1359893119, 2600822924, 528734635, 1541459225]

/-- SHA-256 message padding: `0x80`, zeros to 56 mod 64, 8-byte bit length. -/
def sha256Pad (msg : List Nat) : List Nat :=
  msg ++ [128] ++ List.replicate ((64 - (msg.length + 9) % 64) % 64) 0
    ++ beBytes 8 (8 * msg.length)

/-- Group bytes into big-endian 32-bit words. -/
def bytesToWords : List Nat → List Nat
  | a :: b :: c :: d :: rest =>
    (((a * 256 + b) * 256 + c) * 256 + d) :: bytesToWords rest
  | _ => []

/-- Append the next word of the SHA-256 message schedule. -/
def sha256ExtendStep (ws : List Nat) : List Nat :=
  let i := ws.length
  let w15 := ws.getD (i - 15) 0
  let w2 := ws.getD (i - 2) 0
  let s0 := w32 (Nat.xor (Nat.xor (rotr32 w15 7) (rotr32 w15 18)) (w15 >>> 3))
  let s1 := w32 (Nat.xor (Nat.xor (rotr32 w2 17) (rotr32 w2 19)) (w2 >>> 10))
  ws ++ [w32 (ws.getD (i - 16) 0 + s0 + ws.getD (i - 7) 0 + s1)]

/-- Extend 16 words to the full 64-word schedule. -/
def sha256Schedule (ws : List Nat) : List Nat :=
  (List.range 48).foldl (fun acc _ => sha256ExtendStep acc) ws

/-- One SHA-256 compression round applied to `[a,b,c,d,e,f,g,h]`. -/
def sha256Round (st : List Nat) (kw : Nat × Nat) : List Nat :=
  match st with
  | [a, b, c, d, e, f, g, h] =>
    let s1 := w32 (Nat.xor (Nat.xor (rotr32 e 6) (rotr32 e 11)) (rotr32 e 25))
    let ch := Nat.xor (Nat.land e f) (Nat.land (Nat.xor e 4294967295) g)
    let temp1 := w32 (h + s1 + ch + kw.1 + kw.2)
    let s0 := w32 (Nat.xor (Nat.xor (rotr32 a 2) (rotr32 a 13)) (rotr32 a 22))
    let maj := Nat.xor (Nat.xor (Nat.land a b) (Nat.land a c)) (Nat.land b c)
    let temp2 := w32 (s0 + maj)
    [w32 (temp1 + temp2), a, b, c, w32 (d + temp1), e, f, g]
  | other => other

/-- SHA-256 compression of one 16-word chunk into the running state. -/
def sha256Compress (state : List Nat) (chunkWords : List Nat) : List Nat :=
  let final := (sha256K.zip (sha256Schedule chunkWords)).foldl sha256Round state
  (state.zip final).map (fun p => w32 (p.1 + p.2))

/-- Fold SHA-256 compression over the 64-byte chunks of the padded message. -/
def sha256Chunks (state : List Nat) (bytes : List Nat) : List Nat :=
  if h : bytes = [] then state
  else sha256Chunks (sha256Compress state (bytesToWords (bytes.take 64)))
    (bytes.drop 64)
termination_by bytes.length
decreasing_by
  simp only [List.length_drop]
  have := List.length_pos.mpr h
  omega

/-- SHA-256 digest (32 bytes) of a byte string. -/
def sha256 (msg : List Nat) : List Nat :=
  ((sha256Chunks sha256H0 (sha256Pad msg)).map (beBytes 4)).flatten

/-- Lowercase hexadecimal alphabet. -/
def hexDigits : Str := "0123456789abcdef".toList

/-- Two lowercase hex digits of a byte (`bytes.hex()`). -/
def byteToHex (b : Nat) : Str :=
  [hexDigits.getD (b / 16) '0', hexDigits.getD (b % 16) '0']

/-- A raised `fastapi.HTTPException` (status code and `detail` string). -/
structure HTTPException where
  status_code : Nat
  detail : Str
deriving DecidableEq, Repr

/-- `extract_api_key` from `security.py`, lines 8–19: read the `x-api-key`
header; missing or empty (`if not api_key`) raises 401 "API key missing". -/
def extract_api_key (headers : List (Str × Str)) : Except HTTPException Str :=
  match lookupKey headers "x-api-key".toList with
  | none => .error ⟨401, "API key missing".toList⟩
  | some api_key =>
    if api_key = [] then .error ⟨401, "API key missing".toList⟩
    else .ok api_key

/-- `hash_api_key` from `security.py`, lines 26–31:
`hashlib.sha256(raw_key.encode()).hexdigest()` — lowercase hex SHA-256 of
the UTF-8 bytes. -/
def hash_api_key (raw_key : Str) : Str :=
  ((sha256 (utf8Encode raw_key)).map byteToHex).flatten

/-- `validate_api_key` from `security.py`, lines 38–49: rejects empty keys
and keys shorter than 20 characters with 401 "Invalid API key"; otherwise
returns the hash. -/
def validate_api_key (raw_api_key : Str) : Except HTTPException Str :=
  if raw_api_key = [] ∨ raw_api_key.length < 20 then
    .error ⟨401, "Invalid API key".toList⟩
  else
    .ok (hash_api_key raw_api_key)

/-! ## `config_manager.py` -/

/-- `ProjectConfig` (pydantic model). -/
structure ProjectConfig where
  project_id : Str
  upstream_base_url : Str
  api_key_hash : Str
deriving DecidableEq, Repr

/-- The mutable fields of a `ConfigManager` instance. -/
structure ConfigManagerState where
  projects_by_key : List (Str × ProjectConfig)
  consecutive_failures : Nat
  current_backoff : Nat
deriving DecidableEq, Repr

/-- `ConfigManager.__init__`: empty snapshot, zero failures, 10 s backoff. -/
def ConfigManager.init : ConfigManagerState :=
  ⟨[], 0, 10⟩

/-- `ConfigManager.get_instance` (lines 31–35): lazily constructs the
singleton and returns it.  Its body is `if cls._instance is None:
cls._instance = cls(); return cls._instance` — it has no raising path, so
it is modelled as total, returning the instance and the updated class
attribute. -/
def ConfigManager.get_instance (inst : Option ConfigManagerState) :
    ConfigManagerState × Option ConfigManagerState :=
  match inst with
  | none => (ConfigManager.init, some ConfigManager.init)
  | some m => (m, some m)

/-- `ConfigManager.get_project_by_key`: dict lookup in the live snapshot. -/
def get_project_by_key (projects_by_key : List (Str × ProjectConfig))
    (api_key_hash : Str) : Option ProjectConfig :=
  lookupKey projects_by_key api_key_hash

/-- `health_check` from `main.py`, lines 78–84:
`try: _ = config_manager.get_instance(); return {"status": "ok"}
except: return {"status": "initializing"}`.  The `try` body is the
(non-raising) `get_instance` call, modelled as an `Except` that is always
`ok`. -/
def health_check (inst : Option ConfigManagerState) : Str :=
  match (Except.ok (ConfigManager.get_instance inst) :
      Except Unit (ConfigManagerState × Option ConfigManagerState)) with
  | .ok _ => "ok".toList
  | .error _ => "initializing".toList

/-! ## `traffic_logger.py` and the audit event record -/

/-- The `RequestContext` record that `main.py` emits as an audit event
(`timestamp` and `latency_ms` are wall-clock quantities, outside the
model). -/
structure Event where
  project_id : Str
  api_key_hash : Str
  method : Str
  path : Str
  endpoint : Str
  ip : Str
  user_agent : Option Str
  risk_score : ℚ
  decision : Str
  reason : Option Str
  status_code : Nat
deriving DecidableEq, Repr

/-- `QUEUE_MAX_SIZE = 1000`. -/
def QUEUE_MAX_SIZE : Nat := 1000

/-- The module-level state of `traffic_logger.py`: the `_worker_started`
flag and the bounded in-memory queue. -/
structure TrafficLoggerState where
  worker_started : Bool
  queue : List Event
deriving DecidableEq, Repr

/-- Module initialization: `_worker_started = False`, empty queue. -/
def initialTrafficLoggerState : TrafficLoggerState :=
  ⟨false, []⟩

/-- `start_traffic_logger` (lines 76–98): no-op when already started, when
`CONTROL_API_BASE_URL` is unset, or when no event loop is running;
otherwise spawns the worker and sets `_worker_started`. -/
def start_traffic_logger (controlApiBaseUrlSet : Bool) (loopRunning : Bool)
    (s : TrafficLoggerState) : TrafficLoggerState :=
  if s.worker_started then s
  else if controlApiBaseUrlSet = false then s
  else if loopRunning = false then s
  else { s with worker_started := true }

/-- `emit_traffic_event` (lines 122–145): returns immediately when the
worker was never started; otherwise `put_nowait`, dropping the event when
the queue is full.  (The `normalized_path` → `endpoint` renaming step is a
no-op for events built from `RequestContext`, which already carry
`endpoint`.) -/
def emit_traffic_event (event : Event) (s : TrafficLoggerState) :
    TrafficLoggerState :=
  if s.worker_started = false then s
  else if s.queue.length < QUEUE_MAX_SIZE then
    { s with queue := s.queue ++ [event] }
  else s

/-! ## `main.py`: app state, request model, gateway pipeline -/

/-- Application-level background-task state: `startup` (lines 69–71) calls
only `config_manager.start_background_refresh()`; the traffic logger is
never started there. -/
structure AppState where
  config_refresh_started : Bool
  traffic : TrafficLoggerState
deriving DecidableEq, Repr

/-- Process state before the startup hook runs. -/
def initialAppState : AppState :=
  ⟨false, initialTrafficLoggerState⟩

/-- The `startup` hook of `main.py`: starts the config refresher and
nothing else. -/
def startup (s : AppState) : AppState :=
  { s with config_refresh_started := true }

/-- HTTP methods relevant to the app's routes. -/
inductive Method
  | GET
  | POST
  | PUT
  | DELETE
  | PATCH
  | OPTIONS
  | HEAD
deriving DecidableEq, Repr

/-- The method name string (for the audit event). -/
def Method.toStr : Method → Str
  | .GET => "GET".toList
  | .POST => "POST".toList
  | .PUT => "PUT".toList
  | .DELETE => "DELETE".toList
  | .PATCH => "PATCH".toList
  | .OPTIONS => "OPTIONS".toList
  | .HEAD => "HEAD".toList

/-- An incoming request: method, the `{path:path}` parameter (no leading
slash, as FastAPI passes it), headers (keys normalized to lowercase, as
Starlette does), client IP, and the `user-agent` header. -/
structure HttpRequest where
  method : Method
  path : Str
  headers : List (Str × Str)
  client_ip : Str
  user_agent : Option Str
deriving DecidableEq, Repr

/-- `normalize_path` from `main.py`, lines 316–324: split on `/`, drop empty
segments, replace all-digit segments by `:id`, rejoin with a leading `/`.
Python's `str.isdigit` is modelled with `Char.isDigit` (Python additionally
accepts non-ASCII Unicode digit characters; none of the characters the
algorithm itself introduces — `:`, `i`, `d`, `/` — is a digit under either
reading). -/
def py_isdigit (s : Str) : Bool :=
  !s.isEmpty && s.all Char.isDigit

/-- The per-segment replacement `":id" if segment.isdigit() else segment`. -/
def replSeg (segment : Str) : Str :=
  if py_isdigit segment then ":id".toList else segment

/-- `normalize_path` itself. -/
def normalize_path (path : Str) : Str :=
  '/' :: List.intercalate ['/']
    (((path.splitOn '/').filter (fun s => !s.isEmpty)).map replSeg)

/-- How a request terminated at the worker (which response the client saw). -/
inductive GatewayResponse
  | json (status : Nat) (detail : Str)
  | health (body : Str)
  | preflight
  | proxied (upstreamStatus : Nat)
  | methodNotAllowed
deriving DecidableEq, Repr

/-- The HTTP status code of each terminal response (the preflight handler
returns `Response(status_code=200)`, `/health` a 200 JSON body). -/
def GatewayResponse.statusCode : GatewayResponse → Nat
  | .json s _ => s
  | .health _ => 200
  | .preflight => 200
  | .proxied s => s
  | .methodNotAllowed => 405

/-- The observable outcome of one request: the response, the audit events the
handler scheduled (in emission order), the final KV state, and whether the
request was forwarded upstream. -/
structure GatewayResult where
  response : GatewayResponse
  events : List Event
  kv : RedisState
  forwarded : Bool
deriving DecidableEq, Repr

/-- `forward_request` from `proxy.py`, lines 57–89, abstracted over the
upstream: a transport failure (`httpx.RequestError`, carrying a message)
becomes `HTTPException(502, "Upstream service unreachable: …")`; otherwise
the upstream status is streamed back. -/
def forward_request (upstream : Except Str Nat) : Except HTTPException Nat :=
  match upstream with
  | .error msg =>
    .error ⟨502, "Upstream service unreachable: ".toList ++ msg⟩
  | .ok status_code => .ok status_code

/-- The body of `gateway` from `main.py`, lines 111–309, entered after the
`extract_api_key` dependency succeeded with `raw_api_key`.  An uncaught
non-HTTP exception (only the KV errors here) propagates as `Except.error`;
`HTTPException`s raised by the handler become the JSON error responses
FastAPI renders for them. -/
def gateway (req : HttpRequest) (raw_api_key : Str)
    (cm : ConfigManagerState) (kv : RedisState) (now : Nat)
    (upstream : Except Str Nat) : Except KvError GatewayResult :=
  let method := req.method.toStr
  let client_ip := req.client_ip
  let normalized_path := normalize_path req.path
  match validate_api_key raw_api_key with
  | .error _ =>
    -- emits BLOCK ctx, then raises HTTPException(401, "Invalid API key")
    .ok ⟨.json 401 "Invalid API key".toList,
      [⟨"unknown".toList, "invalid".toList, method, req.path, normalized_path,
        client_ip, req.user_agent, 0, Decision.BLOCK.value,
        some "Missing or invalid API key".toList, 401⟩], kv, false⟩
  | .ok api_key_hash =>
    match get_project_by_key cm.projects_by_key api_key_hash with
    | none =>
      .ok ⟨.json 401 "Invalid API key".toList,
        [⟨"unknown".toList, api_key_hash, method, req.path, normalized_path,
          client_ip, req.user_agent, 0, Decision.BLOCK.value,
          some "Unknown project".toList, 401⟩], kv, false⟩
    | some project_config => do
      let ((rate_allowed, remaining), kv) ←
        check_rate_limit api_key_hash client_ip normalized_path now kv
      let (ml_result, kv) ←
        compute_risk_score api_key_hash client_ip normalized_path kv
      let risk_score := ml_result.risk_score
      let decision_result := make_decision rate_allowed remaining risk_score
      let decision := decision_result.decision
      let reason := decision_result.reason
      -- THROTTLE: `await asyncio.sleep(0.3)` — a pure delay, then proceed
      if decision = .BLOCK then
        return ⟨.json 429 reason,
          [⟨project_config.project_id, api_key_hash, method, req.path,
            normalized_path, client_ip, req.user_agent, risk_score,
            decision.value, some reason, 429⟩], kv, false⟩
      else
        match forward_request upstream with
        | .error e =>
          return ⟨.json e.status_code e.detail,
            [⟨project_config.project_id, api_key_hash, method, req.path,
              normalized_path, client_ip, req.user_agent, risk_score,
              Decision.ALLOW.value, some "Upstream error".toList,
              e.status_code⟩], kv, true⟩
        | .ok response_status =>
          return ⟨.proxied response_status,
            [⟨project_config.project_id, api_key_hash, method, req.path,
              normalized_path, client_ip, req.user_agent, risk_score,
              Decision.ALLOW.value, none, response_status⟩], kv, true⟩

/-- Route dispatch of the FastAPI app in `main.py`: `GET /health` (lines
78–84), the OPTIONS catch-all preflight bypass (lines 91–100), and the
gateway route for GET/POST/PUT/DELETE/PATCH (lines 107–110), whose
`extract_api_key` dependency runs before the handler body; a failing
dependency short-circuits to its 401 response with no event emitted.
Other methods have no route (405). -/
def handle_request (req : HttpRequest) (inst : Option ConfigManagerState)
    (kv : RedisState) (now : Nat) (upstream : Except Str Nat) :
    Except KvError GatewayResult :=
  if req.method = .GET ∧ req.path = "health".toList then
    .ok ⟨.health (health_check inst), [], kv, false⟩
  else if req.method = .OPTIONS then
    .ok ⟨.preflight, [], kv, false⟩
  else if req.method = .GET ∨ req.method = .POST ∨ req.method = .PUT
      ∨ req.method = .DELETE ∨ req.method = .PATCH then
    match extract_api_key req.headers with
    | .error e => .ok ⟨.json e.status_code e.detail, [], kv, false⟩
    | .ok raw_api_key =>
      gateway req raw_api_key (ConfigManager.get_instance inst).1 kv now upstream
  else
    .ok ⟨.methodNotAllowed, [], kv, false⟩

end InfraWorker

namespace InfraWorker

/-- The counter value `check_rate_limit` observes after its `incr` on the
current window key. -/
def window_count (kv : RedisState) (api_key_hash ip_address endpoint : Str)
    (now : Nat) : Nat :=
  (lookupKey kv.counters
    (rate_limit_key api_key_hash ip_address endpoint now)).getD 0 + 1

/-- The `rpm` limit of the profile `classify_endpoint` assigns. -/
def profile_rpm (endpoint : Str) : Nat :=
  ((lookupKey ENDPOINT_LIMITS (classify_endpoint endpoint)).getD (0, 0)).1

/-- The `burst` limit of the profile `classify_endpoint` assigns. -/
def profile_burst (endpoint : Str) : Nat :=
  ((lookupKey ENDPOINT_LIMITS (classify_endpoint endpoint)).getD (0, 0)).2

/-- `classify_endpoint` always returns a key present in `ENDPOINT_LIMITS`
(so the `getD` default in `check_rate_limit` is unreachable, matching the
Python dict indexing that cannot raise `KeyError` here). -/
theorem classify_endpoint_mem (endpoint : Str) :
    (lookupKey ENDPOINT_LIMITS (classify_endpoint endpoint)).isSome := by
  unfold classify_endpoint
  dsimp only
  split_ifs <;> decide

/-- `roundHalfEven q` is either `⌊q⌋`, or `⌊q⌋ + 1` and then the fractional
part of `q` is at least `1/2`. -/
theorem roundHalfEven_cases (q : ℚ) :
    roundHalfEven q = ⌊q⌋
      ∨ (roundHalfEven q = ⌊q⌋ + 1 ∧ 1 / 2 ≤ q - (⌊q⌋ : ℚ)) := by
  unfold roundHalfEven
  dsimp only
  split_ifs with h1 h2 h3
  · exact Or.inl rfl
  · exact Or.inr ⟨rfl, not_lt.mp h1⟩
  · exact Or.inl rfl
  · exact Or.inr ⟨rfl, not_lt.mp h1⟩

/-- `round2` maps `[0, 1]` into `[0, 1]`. -/
theorem round2_unit (q : ℚ) (h0 : 0 ≤ q) (h1 : q ≤ 1) :
    0 ≤ round2 q ∧ round2 q ≤ 1 := by
  have hfl : (0 : ℤ) ≤ ⌊q * 100⌋ := Int.floor_nonneg.mpr (by linarith)
  have hrhe : 0 ≤ roundHalfEven (q * 100) ∧ roundHalfEven (q * 100) ≤ 100 := by
    rcases roundHalfEven_cases (q * 100) with h | ⟨h, hfrac⟩
    · refine ⟨h ▸ hfl, ?_⟩
      rw [h]
      have : ⌊q * 100⌋ ≤ ⌊(100 : ℚ)⌋ := Int.floor_le_floor (by linarith)
      simpa using this
    · refine ⟨h ▸ le_trans hfl (by omega), ?_⟩
      rw [h]
      have hle : (⌊q * 100⌋ : ℚ) ≤ 199 / 2 := by linarith
      have : ⌊q * 100⌋ ≤ ⌊(199 / 2 : ℚ)⌋ := Int.le_floor.mpr hle
      have h99 : ⌊(199 / 2 : ℚ)⌋ = 99 := by norm_num [Int.floor_eq_iff]
      omega
  unfold round2
  constructor
  · have : (0 : ℚ) ≤ (roundHalfEven (q * 100) : ℚ) := by exact_mod_cast hrhe.1
    positivity
  · have : (roundHalfEven (q * 100) : ℚ) ≤ 100 := by exact_mod_cast hrhe.2
    linarith

/-- The weighted aggregate of three `[0, 1]` signals, rounded to two
decimals, stays in `[0, 1]`. -/
theorem risk_formula_unit {a b c : ℚ} (ha0 : 0 ≤ a) (ha1 : a ≤ 1)
    (hb0 : 0 ≤ b) (hb1 : b ≤ 1) (hc0 : 0 ≤ c) (hc1 : c ≤ 1) :
    0 ≤ round2 (0.4 * a + 0.3 * b + 0.3 * c)
      ∧ round2 (0.4 * a + 0.3 * b + 0.3 * c) ≤ 1 := by
  have h0 : (0 : ℚ) ≤ 0.4 * a + 0.3 * b + 0.3 * c := by
    have : (0.4 : ℚ) = 2 / 5 := by norm_num
    nlinarith
  have h1 : 0.4 * a + 0.3 * b + 0.3 * c ≤ 1 := by nlinarith
  exact round2_unit _ h0 h1

/-- C8: for every KV state and every `(key_hash, ip, endpoint)`, the
`risk_score` returned by `compute_risk_score` satisfies
`0 ≤ risk_score ≤ 1` (it is `0.4·velocity + 0.3·burst + 0.3·drift`
rounded to two decimals, each signal lying in `[0, 1]`). -/
theorem compute_risk_score_in_unit_interval (api_key_hash ip_address endpoint : Str)
    (kv : RedisState) :
    match compute_risk_score api_key_hash ip_address endpoint kv with
    | .ok (res, _) => 0 ≤ res.risk_score ∧ res.risk_score ≤ 1
    | .error _ => True := by
  rcases hup : kv.up with _ | _
  · simp only [compute_risk_score, RedisState.incr, hup, Bool.false_eq_true,
      if_false, bind, Except.bind]
  · simp only [compute_risk_score, RedisState.incr, RedisState.expire,
      RedisState.sadd, RedisState.scard, hup, if_true, ite_self, bind,
      Except.bind, pure, Except.pure]
    set v : Nat := (lookupKey kv.counters _).getD 0 + 1 with hv
    set n : Nat := (List.length _) with hn
    refine risk_formula_unit ?_ ?_ ?_ ?_ ?_ ?_
    · exact le_min (by positivity) (by norm_num)
    · exact min_le_right _ _
    · split_ifs with h
      · norm_num
      · positivity
    · split_ifs with h
      · norm_num
      · have hv20 : (v : ℚ) ≤ 20 := by exact_mod_cast Nat.not_lt.mp h
        linarith
    · exact le_min (by positivity) (by norm_num)
    · exact min_le_right _ _

/-- C2: `make_decision` is a pure, deterministic function of
`(rate_limit_allowed, remaining_requests, ml_risk_score)` matching the
§4.6 table exactly, with conditions evaluated in order, for all inputs. -/
theorem make_decision_matches_spec_table (rate_limit_allowed : Bool)
    (remaining_requests : Int) (ml_risk_score : ℚ) :
    ((make_decision rate_limit_allowed remaining_requests ml_risk_score).decision,
      (make_decision rate_limit_allowed remaining_requests ml_risk_score).reason)
      = decisionTableSpec rate_limit_allowed remaining_requests ml_risk_score := by
  unfold make_decision decisionTableSpec
  split_ifs <;> rfl

/-- C5: `validate_api_key` does apply a length check: the non-empty raw key
`"short-key-123"` (13 characters) is rejected with
`HTTPException(401, "Invalid API key")` instead of being hashed — the
claim's "validation never fails for a non-empty key" is violated (the
repository's own test `test_short_api_key_support` expects such keys to be
accepted). -/
theorem validate_api_key_rejects_short_nonempty_key :
    validate_api_key "short-key-123".toList
        = .error ⟨401, "Invalid API key".toList⟩
      ∧ "short-key-123".toList ≠ ([] : Str) := by
  constructor
  · unfold validate_api_key
    rw [if_pos]
    decide
  · decide

/-- C6 (counterexample): with the config-manager singleton not yet
constructed (cache uninitialized), `GET /health` reports `"ok"`, not the
claimed `"initializing"`. -/
theorem health_check_ok_when_uninitialized :
    health_check none = "ok".toList
      ∧ "ok".toList ≠ "initializing".toList := by
  constructor
  · rfl
  · decide

/-- C6 (amended): `GET /health` returns `"ok"` unconditionally —
`ConfigManager.get_instance` lazily constructs the singleton and has no
raising path, so the `"initializing"` branch of `health_check` is
unreachable, whatever the cache state. -/
theorem health_check_always_ok (inst : Option ConfigManagerState) :
    health_check inst = "ok".toList := by
  cases inst <;> rfl

/-- C10: the `startup` hook starts only the config refresher and leaves the
traffic logger untouched; since `start_traffic_logger` is never called,
`_worker_started` is still `false`, so every `emit_traffic_event` returns
immediately without enqueueing and the audit queue stays empty no matter
how many events the gateway emits. -/
theorem no_audit_events_without_logger_start (events : List Event) :
    (startup initialAppState).traffic = initialTrafficLoggerState
      ∧ events.foldl (fun s e => emit_traffic_event e s)
          (startup initialAppState).traffic = initialTrafficLoggerState
      ∧ (events.foldl (fun s e => emit_traffic_event e s)
          (startup initialAppState).traffic).queue = [] := by
  have hstart : (startup initialAppState).traffic = initialTrafficLoggerState := rfl
  have hfold : events.foldl (fun s e => emit_traffic_event e s)
      (startup initialAppState).traffic = initialTrafficLoggerState := by
    rw [hstart]
    induction events with
    | nil => rfl
    | cons e t ih => rw [List.foldl_cons]; exact ih
  exact ⟨hstart, hfold, by rw [hfold]; rfl⟩

/-- Helper: on the gateway route (GET/POST/PUT/DELETE/PATCH, path not
`/health`), a request whose `x-api-key` header is missing or empty is
answered by the `extract_api_key` dependency: 401, detail
"API key missing", no audit event, not forwarded. -/
theorem handle_request_no_key (req : HttpRequest)
    (inst : Option ConfigManagerState) (kv : RedisState) (now : Nat)
    (upstream : Except Str Nat)
    (hm : req.method = .GET ∨ req.method = .POST ∨ req.method = .PUT
      ∨ req.method = .DELETE ∨ req.method = .PATCH)
    (hp : req.path ≠ "health".toList)
    (hh : lookupKey req.headers "x-api-key".toList = none
      ∨ lookupKey req.headers "x-api-key".toList = some []) :
    handle_request req inst kv now upstream
      = .ok ⟨.json 401 "API key missing".toList, [], kv, false⟩ := by
  have h1 : ¬(req.method = .GET ∧ req.path = "health".toList) :=
    fun hc => hp hc.2
  have h2 : ¬req.method = .OPTIONS := by
    rcases hm with h | h | h | h | h <;> rw [h] <;> decide
  unfold handle_request
  rw [if_neg h1, if_neg h2, if_pos hm]
  have hex : extract_api_key req.headers
      = .error ⟨401, "API key missing".toList⟩ := by
    unfold extract_api_key
    rcases hh with hh | hh
    · rw [hh]
    · rw [hh]; rfl
  rw [hex]

/-- Helper: any OPTIONS request is handled by the preflight bypass: 200
with the CORS headers, no API key read, no event, never forwarded. -/
theorem handle_request_options (req : HttpRequest)
    (inst : Option ConfigManagerState) (kv : RedisState) (now : Nat)
    (upstream : Except Str Nat) (hm : req.method = .OPTIONS) :
    handle_request req inst kv now upstream
      = .ok ⟨.preflight, [], kv, false⟩ := by
  have h1 : ¬(req.method = .GET ∧ req.path = "health".toList) := by
    rw [hm]; rintro ⟨hc, -⟩; exact absurd hc (by decide)
  unfold handle_request
  rw [if_neg h1, if_pos hm]

/-- C4 (counterexample): a concrete `GET /x` with no `x-api-key` header is
answered `401` with detail `"API key missing"` — not the claimed
`"Missing or invalid API key"` — and the emitted event list is empty, not
the claimed single BLOCK event. -/
theorem missing_key_request_observed_behavior :
    handle_request ⟨.GET, "x".toList, [], "203.0.113.7".toList, none⟩
        none ⟨true, [], []⟩ 0 (.ok 200)
        = .ok ⟨.json 401 "API key missing".toList, [], ⟨true, [], []⟩, false⟩
      ∧ "API key missing".toList ≠ "Missing or invalid API key".toList := by
  constructor
  · rfl
  · decide

/-- C4 (amended): for every gateway request (GET/POST/PUT/DELETE/PATCH,
path not `/health`) lacking the `x-api-key` header (absent or empty), the
`extract_api_key` dependency raises before the handler body runs: the
response is 401 with detail "API key missing" and no audit event is
emitted. -/
theorem missing_key_yields_401_and_no_event (req : HttpRequest)
    (inst : Option ConfigManagerState) (kv : RedisState) (now : Nat)
    (upstream : Except Str Nat)
    (hm : req.method = .GET ∨ req.method = .POST ∨ req.method = .PUT
      ∨ req.method = .DELETE ∨ req.method = .PATCH)
    (hp : req.path ≠ "health".toList)
    (hh : lookupKey req.headers "x-api-key".toList = none
      ∨ lookupKey req.headers "x-api-key".toList = some []) :
    handle_request req inst kv now upstream
      = .ok ⟨.json 401 "API key missing".toList, [], kv, false⟩ :=
  handle_request_no_key req inst kv now upstream hm hp hh

/-- Witness for the C4 amended theorem at a concrete `POST /y` request
without the header. -/
theorem missing_key_yields_401_and_no_event_witness :
    ((Method.POST = Method.GET ∨ Method.POST = Method.POST
        ∨ Method.POST = Method.PUT ∨ Method.POST = Method.DELETE
        ∨ Method.POST = Method.PATCH)
      ∧ "y".toList ≠ "health".toList
      ∧ lookupKey ([] : List (Str × Str)) "x-api-key".toList = none)
    ∧ handle_request ⟨.POST, "y".toList, [], "198.51.100.2".toList, none⟩
        none ⟨true, [], []⟩ 5 (.ok 204)
      = .ok ⟨.json 401 "API key missing".toList, [], ⟨true, [], []⟩, false⟩ :=
  ⟨⟨by decide, by decide, by decide⟩,
    missing_key_yields_401_and_no_event
      ⟨.POST, "y".toList, [], "198.51.100.2".toList, none⟩
      none ⟨true, [], []⟩ 5 (.ok 204)
      (by decide) (by decide) (Or.inl (by decide))⟩

/-- C7 (counterexample): a concrete OPTIONS request without any
`x-api-key` header is not rejected with 401: the preflight bypass answers
200 and the request is (correctly) never forwarded, so the claim's "every
HTTP method — including OPTIONS — … receives a 401 response" is false. -/
theorem options_request_without_key_gets_200 :
    handle_request ⟨.OPTIONS, "x".toList, [], "203.0.113.7".toList, none⟩
        none ⟨true, [], []⟩ 0 (.ok 200)
        = .ok ⟨.preflight, [], ⟨true, [], []⟩, false⟩
      ∧ GatewayResponse.preflight.statusCode = 200
      ∧ (200 : Nat) ≠ 401 := by
  refine ⟨?_, by decide, by decide⟩
  rfl

/-- C7 (amended): for GET/POST/PUT/DELETE/PATCH on any path other than
`/health`, the `x-api-key` header is required — a request without it gets
status 401 and is never forwarded upstream; OPTIONS requests, however,
bypass the pipeline entirely: they get 200 from the preflight handler
without any key, and are never forwarded either. -/
theorem gateway_key_requirement_and_options_bypass :
    (∀ (req : HttpRequest) (inst : Option ConfigManagerState)
        (kv : RedisState) (now : Nat) (upstream : Except Str Nat),
      (req.method = .GET ∨ req.method = .POST ∨ req.method = .PUT
        ∨ req.method = .DELETE ∨ req.method = .PATCH) →
      req.path ≠ "health".toList →
      lookupKey req.headers "x-api-key".toList = none →
      match handle_request req inst kv now upstream with
      | .ok res => res.response.statusCode = 401 ∧ res.forwarded = false
      | .error _ => False)
    ∧ (∀ (req : HttpRequest) (inst : Option ConfigManagerState)
        (kv : RedisState) (now : Nat) (upstream : Except Str Nat),
      req.method = .OPTIONS →
      handle_request req inst kv now upstream
        = .ok ⟨.preflight, [], kv, false⟩) := by
  constructor
  · intro req inst kv now upstream hm hp hh
    rw [handle_request_no_key req inst kv now upstream hm hp (Or.inl hh)]
    exact ⟨rfl, rfl⟩
  · intro req inst kv now upstream hm
    exact handle_request_options req inst kv now upstream hm

/-- Witness for the C7 amended theorem: concrete `PUT /z` without a key
(401, not forwarded) and concrete `OPTIONS /z` (preflight 200). -/
theorem gateway_key_requirement_and_options_bypass_witness :
    (match handle_request ⟨.PUT, "z".toList, [], "192.0.2.9".toList, none⟩
        none ⟨true, [], []⟩ 7 (.ok 200) with
      | .ok res => res.response.statusCode = 401 ∧ res.forwarded = false
      | .error _ => False)
    ∧ handle_request ⟨.OPTIONS, "z".toList, [], "192.0.2.9".toList, none⟩
        none ⟨true, [], []⟩ 7 (.ok 200)
      = .ok ⟨.preflight, [], ⟨true, [], []⟩, false⟩ :=
  ⟨gateway_key_requirement_and_options_bypass.1
      ⟨.PUT, "z".toList, [], "192.0.2.9".toList, none⟩
      none ⟨true, [], []⟩ 7 (.ok 200) (by decide) (by decide) (by decide),
    gateway_key_requirement_and_options_bypass.2
      ⟨.OPTIONS, "z".toList, [], "192.0.2.9".toList, none⟩
      none ⟨true, [], []⟩ 7 (.ok 200) rfl⟩

/-- C3 (counterexample): `check_rate_limit` does not use `RPM = 60`,
`BURST = 20` for every endpoint — `classify_endpoint "/auth"` selects the
HIGH profile `(10, 5)`, so with 15 prior requests in the window the 16th
is rejected `(false, 0)`, while the claim's fixed-60/20 formula (16 ≤ 80)
predicts `(true, max (60 − 16) 0) = (true, 44)`. -/
theorem check_rate_limit_auth_endpoint_differs :
    check_rate_limit "k".toList "i".toList "/auth".toList 0
        ⟨true, [("rate_limit:k:i:/auth:0".toList, 15)], []⟩
      = .ok ((false, 0),
          ⟨true, [("rate_limit:k:i:/auth:0".toList, 16)], []⟩)
      ∧ ¬(15 + 1 > 60 + 20)
      ∧ ((false, 0) : Bool × Int) ≠ (true, max ((60 : Int) - (15 + 1)) 0) := by
  refine ⟨?_, by decide, by decide⟩
  rfl

/-- C3 (amended): `check_rate_limit` applies the profile limits chosen by
`classify_endpoint` (HIGH 10/5 for endpoints containing auth/login/otp,
LOW 300/50 for search/list, MEDIUM 60/20 otherwise): after the increment,
a count above `rpm + burst` yields `(false, 0)`, otherwise
`(true, max (rpm − count) 0)`; in particular `remaining ≥ 0` always and
`remaining = 0` whenever `allowed = false`. -/
theorem check_rate_limit_profile_contract
    (api_key_hash ip_address endpoint : Str) (now : Nat) (kv : RedisState)
    (allowed : Bool) (remaining : Int) (kv' : RedisState)
    (h : check_rate_limit api_key_hash ip_address endpoint now kv
      = .ok ((allowed, remaining), kv')) :
    0 ≤ remaining
      ∧ (allowed = false → remaining = 0)
      ∧ (window_count kv api_key_hash ip_address endpoint now
            > profile_rpm endpoint + profile_burst endpoint →
          (allowed, remaining) = (false, 0))
      ∧ (¬ window_count kv api_key_hash ip_address endpoint now
            > profile_rpm endpoint + profile_burst endpoint →
          (allowed, remaining) = (true,
            max ((profile_rpm endpoint : Int)
              - window_count kv api_key_hash ip_address endpoint now) 0)) := by
  unfold window_count profile_rpm profile_burst
  rcases hup : kv.up with _ | _
  · rw [check_rate_limit] at h
    simp only [RedisState.incr, hup, Bool.false_eq_true, if_false, bind,
      Except.bind] at h
    exact absurd h (by simp)
  · rw [check_rate_limit] at h
    simp only [RedisState.incr, RedisState.expire, hup, if_true, ite_self,
      bind, Except.bind, pure, Except.pure] at h
    split_ifs at h with hcount
    · simp only [Except.ok.injEq, Prod.mk.injEq] at h
      obtain ⟨⟨ha, hr⟩, -⟩ := h
      subst ha hr
      exact ⟨le_refl 0, fun _ => rfl, fun _ => rfl, fun hc => absurd hcount hc⟩
    · simp only [Except.ok.injEq, Prod.mk.injEq] at h
      obtain ⟨⟨ha, hr⟩, -⟩ := h
      subst ha hr
      refine ⟨le_max_right _ _, fun hfalse => absurd hfalse (by decide),
        fun hc => absurd hc hcount, fun _ => rfl⟩

/-- Witness for the C3 amended theorem: a fresh window on endpoint `"e"`
(MEDIUM profile, 60/20) admits the first request with 59 remaining. -/
theorem check_rate_limit_profile_contract_witness :
    check_rate_limit "k".toList "i".toList "e".toList 0 ⟨true, [], []⟩
        = .ok ((true, 59), ⟨true, [("rate_limit:k:i:e:0".toList, 1)], []⟩)
      ∧ (0 : Int) ≤ 59 :=
  ⟨by rfl,
    (check_rate_limit_profile_contract "k".toList "i".toList "e".toList 0
      ⟨true, [], []⟩ true 59 ⟨true, [("rate_limit:k:i:e:0".toList, 1)], []⟩
      (by rfl)).1⟩

/-- Helper: with the KV store down, `check_rate_limit`,
`compute_risk_score` and (for a request that reaches them: resolvable key,
known project) the whole handler raise `kv_unavailable` instead of failing
open. -/
theorem kv_down_pipeline (req : HttpRequest)
    (inst : Option ConfigManagerState) (kv : RedisState) (now : Nat)
    (upstream : Except Str Nat) (raw keyHash : Str) (proj : ProjectConfig)
    (hup : kv.up = false)
    (hm : req.method = .GET ∨ req.method = .POST ∨ req.method = .PUT
      ∨ req.method = .DELETE ∨ req.method = .PATCH)
    (hp : req.path ≠ "health".toList)
    (hex : extract_api_key req.headers = .ok raw)
    (hval : validate_api_key raw = .ok keyHash)
    (hlook : get_project_by_key
        (ConfigManager.get_instance inst).1.projects_by_key keyHash
      = some proj) :
    check_rate_limit keyHash req.client_ip (normalize_path req.path) now kv
        = .error .kv_unavailable
      ∧ compute_risk_score keyHash req.client_ip (normalize_path req.path) kv
        = .error .kv_unavailable
      ∧ handle_request req inst kv now upstream = .error .kv_unavailable := by
  have hrl : check_rate_limit keyHash req.client_ip (normalize_path req.path)
      now kv = .error .kv_unavailable := by
    rw [check_rate_limit]
    simp only [RedisState.incr, hup, Bool.false_eq_true, if_false, bind,
      Except.bind]
  have hml : compute_risk_score keyHash req.client_ip (normalize_path req.path)
      kv = .error .kv_unavailable := by
    rw [compute_risk_score]
    simp only [RedisState.incr, hup, Bool.false_eq_true, if_false, bind,
      Except.bind]
  have hgw : gateway req raw (ConfigManager.get_instance inst).1 kv now
      upstream = .error .kv_unavailable := by
    unfold gateway
    simp only [hval, hlook, hrl, bind, Except.bind]
  have h1 : ¬(req.method = .GET ∧ req.path = "health".toList) :=
    fun hc => hp hc.2
  have h2 : ¬req.method = .OPTIONS := by
    rcases hm with h | h | h | h | h <;> rw [h] <;> decide
  refine ⟨hrl, hml, ?_⟩
  unfold handle_request
  rw [if_neg h1, if_neg h2, if_pos hm, hex]
  exact hgw

/-- C1 (amended): requests whose KV operations fail do NOT fail open —
`check_rate_limit` and `compute_risk_score` have no error handling, so the
KV error propagates out of the handler uncaught: the request is not
allowed, no `risk_score = 0.0` is produced, and no audit event (tagged
`kv_unavailable` or otherwise) is emitted; the framework turns the escaped
exception into a server error. -/
theorem kv_unavailable_propagates (req : HttpRequest)
    (inst : Option ConfigManagerState) (kv : RedisState) (now : Nat)
    (upstream : Except Str Nat) (raw keyHash : Str) (proj : ProjectConfig)
    (hup : kv.up = false)
    (hm : req.method = .GET ∨ req.method = .POST ∨ req.method = .PUT
      ∨ req.method = .DELETE ∨ req.method = .PATCH)
    (hp : req.path ≠ "health".toList)
    (hex : extract_api_key req.headers = .ok raw)
    (hval : validate_api_key raw = .ok keyHash)
    (hlook : get_project_by_key
        (ConfigManager.get_instance inst).1.projects_by_key keyHash
      = some proj) :
    check_rate_limit keyHash req.client_ip (normalize_path req.path) now kv
        = .error .kv_unavailable
      ∧ compute_risk_score keyHash req.client_ip (normalize_path req.path) kv
        = .error .kv_unavailable
      ∧ handle_request req inst kv now upstream = .error .kv_unavailable :=
  kv_down_pipeline req inst kv now upstream raw keyHash proj
    hup hm hp hex hval hlook

/-- Witness for the C1 amended theorem: a concrete `GET /users/7` with a
valid 20-character key, a config snapshot containing its hash, and the KV
store down. -/
theorem kv_unavailable_propagates_witness :
    ((⟨false, [], []⟩ : RedisState).up = false
      ∧ extract_api_key [("x-api-key".toList, "abcdefghijabcdefghij".toList)]
        = .ok "abcdefghijabcdefghij".toList
      ∧ validate_api_key "abcdefghijabcdefghij".toList
        = .ok (hash_api_key "abcdefghijabcdefghij".toList))
    ∧ check_rate_limit (hash_api_key "abcdefghijabcdefghij".toList)
        "203.0.113.7".toList (normalize_path "users/7".toList) 0
        ⟨false, [], []⟩
      = .error .kv_unavailable :=
  ⟨⟨rfl, rfl, by unfold validate_api_key; rw [if_neg (by decide)]⟩,
    (kv_unavailable_propagates
      ⟨.GET, "users/7".toList,
        [("x-api-key".toList, "abcdefghijabcdefghij".toList)],
        "203.0.113.7".toList, none⟩
      (some ⟨[(hash_api_key "abcdefghijabcdefghij".toList,
          ⟨"p1".toList, "http://u".toList,
            hash_api_key "abcdefghijabcdefghij".toList⟩)], 0, 10⟩)
      ⟨false, [], []⟩ 0 (.ok 200)
      "abcdefghijabcdefghij".toList
      (hash_api_key "abcdefghijabcdefghij".toList)
      ⟨"p1".toList, "http://u".toList,
        hash_api_key "abcdefghijabcdefghij".toList⟩
      rfl (by decide) (by decide) rfl
      (by unfold validate_api_key; rw [if_neg (by decide)])
      (by simp [ConfigManager.get_instance, get_project_by_key, lookupKey])).1⟩

/-- C1 (counterexample): a concrete request (`GET /users/123`, valid key,
known project) with the KV store down makes the whole handler raise
`kv_unavailable`: the request is not allowed and no audit event tagged
`kv_unavailable` is emitted, contradicting the claimed fail-open
behavior. -/
theorem kv_down_request_errors_concrete :
    handle_request
        ⟨.GET, "users/123".toList,
          [("x-api-key".toList, "abcdefghijabcdefghij".toList)],
          "203.0.113.7".toList, none⟩
        (some ⟨[(hash_api_key "abcdefghijabcdefghij".toList,
            ⟨"p1".toList, "http://u".toList,
              hash_api_key "abcdefghijabcdefghij".toList⟩)], 0, 10⟩)
        ⟨false, [], []⟩ 0 (.ok 200)
      = .error .kv_unavailable :=
  (kv_down_pipeline
    ⟨.GET, "users/123".toList,
      [("x-api-key".toList, "abcdefghijabcdefghij".toList)],
      "203.0.113.7".toList, none⟩
    (some ⟨[(hash_api_key "abcdefghijabcdefghij".toList,
        ⟨"p1".toList, "http://u".toList,
          hash_api_key "abcdefghijabcdefghij".toList⟩)], 0, 10⟩)
    ⟨false, [], []⟩ 0 (.ok 200)
    "abcdefghijabcdefghij".toList
    (hash_api_key "abcdefghijabcdefghij".toList)
    ⟨"p1".toList, "http://u".toList,
      hash_api_key "abcdefghijabcdefghij".toList⟩
    rfl (by decide) (by decide) rfl
    (by unfold validate_api_key; rw [if_neg (by decide)])
    (by simp [ConfigManager.get_instance, get_project_by_key, lookupKey])).2.2

/-- No chunk produced by `splitOnP p` contains an element satisfying `p`. -/
theorem mem_splitOnP_forall {α : Type} (p : α → Bool) :
    ∀ (xs : List α) (s : List α), s ∈ xs.splitOnP p → ∀ a ∈ s, p a = false := by
  intro xs
  induction xs with
  | nil =>
    intro s hs a ha
    rw [List.splitOnP_nil] at hs
    simp only [List.mem_singleton] at hs
    subst hs
    simp at ha
  | cons x t ih =>
    intro s hs a ha
    rw [List.splitOnP_cons] at hs
    by_cases hx : p x
    · rw [if_pos hx] at hs
      rcases List.mem_cons.mp hs with h | h
      · subst h; simp at ha
      · exact ih s h a ha
    · rw [if_neg hx] at hs
      rcases hsp : t.splitOnP p with _ | ⟨hd, tl⟩
      · exact absurd hsp (List.splitOnP_ne_nil p t)
      · rw [hsp] at hs
        simp only [List.modifyHead] at hs
        rcases List.mem_cons.mp hs with h | h
        · subst h
          rcases List.mem_cons.mp ha with h' | h'
          · subst h'; exact Bool.eq_false_iff.mpr hx
          · exact ih hd (by rw [hsp]; exact List.mem_cons_self hd tl) a h'
        · exact ih s (by rw [hsp]; exact List.mem_cons_of_mem hd h) a ha

/-- No chunk produced by `splitOn '/'` contains `'/'`. -/
theorem mem_splitOn_slash_free (p : Str) :
    ∀ s ∈ p.splitOn '/', '/' ∉ s := by
  intro s hs hmem
  have h := mem_splitOnP_forall (fun c => c == '/') p s (by simpa [List.splitOn] using hs) '/' hmem
  simp at h

/-- `replSeg` keeps segments non-empty. -/
theorem replSeg_ne_nil {s : Str} (h : s ≠ []) : replSeg s ≠ [] := by
  unfold replSeg
  split_ifs
  · decide
  · exact h

/-- `replSeg` keeps segments slash-free. -/
theorem replSeg_slash_free {s : Str} (h : '/' ∉ s) : '/' ∉ replSeg s := by
  unfold replSeg
  split_ifs
  · decide
  · exact h

/-- `replSeg` is idempotent: `":id"` is not all-digits, and a segment the
first pass kept is (still) not all-digits. -/
theorem replSeg_idem (s : Str) : replSeg (replSeg s) = replSeg s := by
  by_cases h : py_isdigit s
  · have hid : py_isdigit ":id".toList = false := by decide
    simp [replSeg, h, hid]
  · simp [replSeg, h]

/-- C9: `normalize_path` is idempotent. -/
theorem normalize_path_idempotent (p : Str) :
    normalize_path (normalize_path p) = normalize_path p := by
  have hgood : ∀ s ∈ ((p.splitOn '/').filter (fun s => !s.isEmpty)).map replSeg,
      s ≠ [] ∧ '/' ∉ s := by
    intro s hs
    rcases List.mem_map.mp hs with ⟨s0, hs0, rfl⟩
    have h1 := (List.mem_filter.mp hs0).1
    have h2 := (List.mem_filter.mp hs0).2
    have hne : s0 ≠ [] := by
      intro hnil; rw [hnil] at h2; simp at h2
    have hns : '/' ∉ s0 := mem_splitOn_slash_free p s0 h1
    exact ⟨replSeg_ne_nil hne, replSeg_slash_free hns⟩
  set segs := ((p.splitOn '/').filter (fun s => !s.isEmpty)).map replSeg
    with hsegs
  have hnp : normalize_path p = '/' :: List.intercalate ['/'] segs := by
    rw [normalize_path, ← hsegs]
  rw [hnp]
  by_cases hnil : segs = []
  · rw [hnil]; rfl
  · have h1 : (List.intercalate ['/'] segs).splitOn '/' = segs :=
      List.splitOn_intercalate segs '/' (fun l hl => (hgood l hl).2) hnil
    have hsplit : ('/' :: List.intercalate ['/'] segs).splitOn '/'
        = [] :: segs := by
      simp only [List.splitOn, List.splitOnP_cons] at h1 ⊢
      rw [if_pos (by decide : (('/' : Char) == '/') = true), h1]
    rw [normalize_path, hsplit]
    have hfilter : ([] :: segs).filter (fun s => !s.isEmpty) = segs := by
      rw [List.filter_cons]
      simp only [List.isEmpty_nil, Bool.not_true, Bool.false_eq_true,
        if_false]
      exact List.filter_eq_self.mpr
        (fun s hs => by simp [List.isEmpty_iff, (hgood s hs).1])
    rw [hfilter]
    have hmap : segs.map replSeg = segs := by
      rw [hsegs, List.map_map]
      exact List.map_congr_left (fun a _ => replSeg_idem a)
    rw [hmap]

end InfraWorker
